import Mathlib

/-!
Verification of the Mongo→MySQL billing migrator.

Shallow embedding of `src/main.go` and `src/models/models.go`:
pure field-mapping and decision logic is translated into Lean functions,
destination tables are lists of typed rows, and the MySQL write primitives
(`Create`, `Clauses(OnConflict{DoNothing}).Create`) are modelled by list
insertion with the conflict semantics induced by the gorm schema tags of
`models.go` (a row insert is silently ignored exactly when it collides with
an existing row on a declared primary key or unique index; a table that
declares neither never reports a conflict).
-/

namespace Migrator

/-- Model of Go `time.Time`: `year` is the calendar year (`t.Year()`), and
`sub` abstracts the rest of the instant (month, day, time of day, nanoseconds)
as an opaque index within the year.  Go's zero `time.Time` is
January 1 of year 1 at 00:00:00 UTC, i.e. `year = 1, sub = 0` here. -/
structure GoTime where
  year : Int
  sub : Nat
  deriving DecidableEq, Repr

/-- `t.IsZero()`: the zero instant, January 1 year 1, 00:00:00 UTC. -/
def GoTime.isZero (t : GoTime) : Bool :=
  t.year == 1 && t.sub == 0

/-- Model of the IEEE-754 bit pattern of a Go `float64`.  The migrator only
copies float fields verbatim and never computes with them, so the carrier is
an uninterpreted bit pattern. -/
structure GoFloat where
  bits : Nat
  deriving DecidableEq, Repr

/-- `validateDateTime` (main.go:137-144): returns `nil` for the zero time or a
year outside `[1970, 2100]` (or year exactly 0), otherwise the input unchanged. -/
def validateDateTime (t : GoTime) : Option GoTime :=
  if t.isZero = true ∨ t.year < 1970 ∨ t.year > 2100 ∨ t.year = 0 then none
  else some t

/-- A value surviving the sanitizer is the input itself and is not the zero time. -/
theorem validateDateTime_some {t v : GoTime} (h : validateDateTime t = some v) :
    v = t ∧ t.isZero = false := by
  unfold validateDateTime at h
  split at h
  · exact absurd h (by simp)
  · rename_i hc
    push_neg at hc
    refine ⟨by injection h with h; exact h.symm, ?_⟩
    simpa using hc.1

/-- C4: `validateDateTime` returns absence exactly when the input is the zero
value, or its year is below 1970, above 2100, or exactly 0; any other input is
returned unchanged. -/
theorem validateDateTime_spec (t : GoTime) :
    (validateDateTime t = none ↔
      (t.isZero = true ∨ t.year < 1970 ∨ t.year > 2100 ∨ t.year = 0)) ∧
    (¬ (t.isZero = true ∨ t.year < 1970 ∨ t.year > 2100 ∨ t.year = 0) →
      validateDateTime t = some t) := by
  constructor
  · unfold validateDateTime
    split <;> simp_all
  · intro h
    unfold validateDateTime
    simp [h]

/-- C4 witness: a year-1 timestamp and a year-2200 timestamp map to absence;
a year-2023 timestamp passes through unchanged. -/
theorem validateDateTime_spec_witness :
    validateDateTime ⟨1, 0⟩ = none ∧
    validateDateTime ⟨2200, 0⟩ = none ∧
    validateDateTime ⟨2023, 7⟩ = some ⟨2023, 7⟩ :=
  ⟨(validateDateTime_spec ⟨1, 0⟩).1.mpr (by decide),
   (validateDateTime_spec ⟨2200, 0⟩).1.mpr (by decide),
   (validateDateTime_spec ⟨2023, 7⟩).2 (by decide)⟩

/-- Dynamic value held in a decoded `map[string]interface{}` sub-object of a
charge document.  A Go type assertion `.(string)` succeeds only on `str`,
`.(time.Time)` only on `time`; `other` stands for any further dynamic type. -/
inductive BsonVal where
  | str : String → BsonVal
  | time : GoTime → BsonVal
  | other : BsonVal
  deriving DecidableEq, Repr

/-- A decoded `*map[string]interface{}` sub-object: key/value pairs. -/
abbrev SubObj := List (String × BsonVal)

/-- `(*m)[k].(string)`: the value for `k`, when present and string-typed. -/
def getStr (m : SubObj) (k : String) : Option String :=
  match m.lookup k with
  | some (.str s) => some s
  | _ => none

/-- `(*m)[k].(time.Time)`: the value for `k`, when present and time-typed. -/
def getTime (m : SubObj) (k : String) : Option GoTime :=
  match m.lookup k with
  | some (.time t) => some t
  | _ => none

/-- `objectId` extraction (main.go:613-615 and the analogous lines of every
branch): the sub-object's `_id` when present and string-typed, else the Go
zero value `""`. -/
def subObjId (m : SubObj) : String :=
  (getStr m "_id").getD ""

/-- `number` extraction (main.go:616-618 and analogous lines). -/
def subObjNumber (m : SubObj) : String :=
  (getStr m "number").getD ""

/-- `date1` extraction for the roaming-invoice branch (main.go:619-628): a
time-typed `date` wins; otherwise a string-typed `date` is fed to
`time.Parse(time.RFC3339, ·)` and only a successful parse populates the field. -/
def riDate1 (parse : String → Option GoTime) (m : SubObj) : Option GoTime :=
  match getTime m "date" with
  | some t => some t
  | none =>
    match getStr m "date" with
    | some s => parse s
    | none => none

/-- The decoded charge document (main.go:554-588).  Field names follow the
Go struct; `price` is copied verbatim, nested `organization`/`package`/
`service`/`item` sub-documents are flattened to the fields the migrator reads. -/
structure MongoCharge where
  id : String
  createdAt : GoTime
  isDeleted : Bool
  organizationId : String
  price : GoFloat
  packageId : String
  itemCode : Int
  serviceCode : String
  ediReturnInvoice : Option SubObj
  ediAttorney : Option SubObj
  roamingInvoice : Option SubObj
  roamingContract : Option SubObj
  roamingWaybill : Option SubObj
  roamingAct : Option SubObj
  roamingVerificationAct : Option SubObj
  roamingEmpowerment : Option SubObj
  deriving DecidableEq, Repr

/-- The `(chargeType, objectId, number, date1, date2)` tuple computed by the
discriminant resolver before the `created_at` fallback. -/
structure ResolvedCharge where
  chargeType : Int
  objectId : String
  number : String
  date1 : Option GoTime
  date2 : Option GoTime
  deriving DecidableEq, Repr

/-- The discriminant else-if chain of `migrateCharges` (main.go:602-712):
sub-objects are tested in the order roaming invoice, roaming contract,
roaming waybill, roaming act, roaming verification act, roaming empowerment,
EDI return invoice, EDI attorney; the first non-nil one fixes the type code
and supplies the extracted fields.  Only the roaming-invoice branch carries
the RFC 3339 string fallback for its date; empowerment and attorney read
`start_date`/`end_date`, all other branches read `date`.  `parse` stands for
`time.Parse(time.RFC3339, ·)` returning `none` on error. -/
def resolveChargeType (parse : String → Option GoTime) (c : MongoCharge) :
    ResolvedCharge :=
  match c.roamingInvoice with
  | some m => ⟨3, subObjId m, subObjNumber m, riDate1 parse m, none⟩
  | none =>
    match c.roamingContract with
    | some m => ⟨7, subObjId m, subObjNumber m, getTime m "date", none⟩
    | none =>
      match c.roamingWaybill with
      | some m => ⟨10, subObjId m, subObjNumber m, getTime m "date", none⟩
      | none =>
        match c.roamingAct with
        | some m => ⟨9, subObjId m, subObjNumber m, getTime m "date", none⟩
        | none =>
          match c.roamingVerificationAct with
          | some m => ⟨8, subObjId m, subObjNumber m, getTime m "date", none⟩
          | none =>
            match c.roamingEmpowerment with
            | some m =>
              ⟨11, subObjId m, subObjNumber m,
                getTime m "start_date", getTime m "end_date"⟩
            | none =>
              match c.ediReturnInvoice with
              | some m => ⟨2, subObjId m, subObjNumber m, getTime m "date", none⟩
              | none =>
                match c.ediAttorney with
                | some m =>
                  ⟨4, subObjId m, subObjNumber m,
                    getTime m "start_date", getTime m "end_date"⟩
                | none => ⟨0, "", "", none, none⟩

/-- The resolver including the fallback of main.go:714-717: when no date was
extracted, `date1` becomes the charge's own `created_at`. -/
def resolveCharge (parse : String → Option GoTime) (c : MongoCharge) :
    ResolvedCharge :=
  let r := resolveChargeType parse c
  match r.date1 with
  | none => { r with date1 := some c.createdAt }
  | some _ => r

/-- Destination `charges` row (models.go:118-132). -/
structure Charge where
  id : String
  createdAt : GoTime
  isDeleted : Bool
  organizationId : String
  price : GoFloat
  chargeType : Int
  boughtPackageId : String
  boughtPackageItemCode : Int
  serviceCode : String
  objectId : String
  number : String
  date1 : Option GoTime
  date2 : Option GoTime
  deriving DecidableEq, Repr

/-- Construction of the destination charge row (main.go:719-743): resolved
tuple plus verbatim copies; the extracted dates pass through
`validateDateTime` before storage. -/
def buildCharge (parse : String → Option GoTime) (c : MongoCharge) : Charge :=
  let r := resolveCharge parse c
  { id := c.id
    createdAt := c.createdAt
    isDeleted := c.isDeleted
    organizationId := c.organizationId
    price := c.price
    chargeType := r.chargeType
    boughtPackageId := c.packageId
    boughtPackageItemCode := c.itemCode
    serviceCode := c.serviceCode
    objectId := r.objectId
    number := r.number
    date1 := r.date1.bind validateDateTime
    date2 := r.date2.bind validateDateTime }

/-- C1: the discriminant resolver tests the eight optional sub-objects in the
fixed priority order roaming invoice (3), roaming contract (7), roaming
waybill (10), roaming act (9), roaming verification act (8), roaming
empowerment (11), return invoice (2), attorney (4); the first present
sub-object fixes the type code and `object_id`/`number`/`date1` (and `date2`)
are extracted from that winning sub-object only. -/
theorem charge_type_priority (parse : String → Option GoTime) (c : MongoCharge)
    (m : SubObj) :
    (c.roamingInvoice = some m →
      resolveChargeType parse c =
        ⟨3, subObjId m, subObjNumber m, riDate1 parse m, none⟩) ∧
    (c.roamingInvoice = none → c.roamingContract = some m →
      resolveChargeType parse c =
        ⟨7, subObjId m, subObjNumber m, getTime m "date", none⟩) ∧
    (c.roamingInvoice = none → c.roamingContract = none →
      c.roamingWaybill = some m →
      resolveChargeType parse c =
        ⟨10, subObjId m, subObjNumber m, getTime m "date", none⟩) ∧
    (c.roamingInvoice = none → c.roamingContract = none →
      c.roamingWaybill = none → c.roamingAct = some m →
      resolveChargeType parse c =
        ⟨9, subObjId m, subObjNumber m, getTime m "date", none⟩) ∧
    (c.roamingInvoice = none → c.roamingContract = none →
      c.roamingWaybill = none → c.roamingAct = none →
      c.roamingVerificationAct = some m →
      resolveChargeType parse c =
        ⟨8, subObjId m, subObjNumber m, getTime m "date", none⟩) ∧
    (c.roamingInvoice = none → c.roamingContract = none →
      c.roamingWaybill = none → c.roamingAct = none →
      c.roamingVerificationAct = none → c.roamingEmpowerment = some m →
      resolveChargeType parse c =
        ⟨11, subObjId m, subObjNumber m,
          getTime m "start_date", getTime m "end_date"⟩) ∧
    (c.roamingInvoice = none → c.roamingContract = none →
      c.roamingWaybill = none → c.roamingAct = none →
      c.roamingVerificationAct = none → c.roamingEmpowerment = none →
      c.ediReturnInvoice = some m →
      resolveChargeType parse c =
        ⟨2, subObjId m, subObjNumber m, getTime m "date", none⟩) ∧
    (c.roamingInvoice = none → c.roamingContract = none →
      c.roamingWaybill = none → c.roamingAct = none →
      c.roamingVerificationAct = none → c.roamingEmpowerment = none →
      c.ediReturnInvoice = none → c.ediAttorney = some m →
      resolveChargeType parse c =
        ⟨4, subObjId m, subObjNumber m,
          getTime m "start_date", getTime m "end_date"⟩) := by
  obtain ⟨i, ca, dl, oi, pr, pk, ic, sc, f1, f2, f3, f4, f5, f6, f7, f8⟩ := c
  refine ⟨?_, ?_, ?_, ?_, ?_, ?_, ?_, ?_⟩ <;>
    (intros; subst_vars; rfl)

/-- A parse function standing for `time.Parse(time.RFC3339, ·)`; it is never
consulted when the winning branch carries no string fallback. -/
def parseNone : String → Option GoTime := fun _ => none

/-- A roaming-invoice sub-object with string id/number and a native date. -/
def subObjRI : SubObj :=
  [("_id", .str "obj-1"), ("number", .str "num-1"), ("date", .time ⟨2023, 10⟩)]

/-- A charge carrying only a `roaming_invoice` sub-object. -/
def chargeRoamingInvoiceOnly : MongoCharge :=
  { id := "a1", createdAt := ⟨2022, 3⟩, isDeleted := false,
    organizationId := "o1", price := ⟨0⟩, packageId := "p1", itemCode := 5,
    serviceCode := "svc", ediReturnInvoice := none, ediAttorney := none,
    roamingInvoice := some subObjRI, roamingContract := none,
    roamingWaybill := none, roamingAct := none, roamingVerificationAct := none,
    roamingEmpowerment := none }

/-- C1 witness: a charge with only a `roaming_invoice` sub-object resolves to
code 3 with `object_id`/`number`/`date1` taken from that sub-object. -/
theorem charge_type_priority_witness :
    resolveChargeType parseNone chargeRoamingInvoiceOnly =
      ⟨3, "obj-1", "num-1", some ⟨2023, 10⟩, none⟩ := by
  have h := (charge_type_priority parseNone chargeRoamingInvoiceOnly subObjRI).1 rfl
  rw [h]
  decide

/-- C8: a charge in which none of the eight sub-objects is present resolves to
discriminant code 0 with empty `object_id`/`number`, and `date1` falls back to
the charge's own creation timestamp. -/
theorem charge_uncategorized_default (parse : String → Option GoTime)
    (c : MongoCharge)
    (h1 : c.roamingInvoice = none) (h2 : c.roamingContract = none)
    (h3 : c.roamingWaybill = none) (h4 : c.roamingAct = none)
    (h5 : c.roamingVerificationAct = none) (h6 : c.roamingEmpowerment = none)
    (h7 : c.ediReturnInvoice = none) (h8 : c.ediAttorney = none) :
    resolveCharge parse c = ⟨0, "", "", some c.createdAt, none⟩ := by
  obtain ⟨i, ca, dl, oi, pr, pk, ic, sc, f1, f2, f3, f4, f5, f6, f7, f8⟩ := c
  subst_vars
  rfl

/-- A charge with none of the eight sub-objects present. -/
def chargeUncategorized : MongoCharge :=
  { id := "b2", createdAt := ⟨2021, 42⟩, isDeleted := false,
    organizationId := "o2", price := ⟨1⟩, packageId := "p2", itemCode := 1,
    serviceCode := "svc", ediReturnInvoice := none, ediAttorney := none,
    roamingInvoice := none, roamingContract := none, roamingWaybill := none,
    roamingAct := none, roamingVerificationAct := none,
    roamingEmpowerment := none }

/-- C8 witness: a concrete charge with no sub-object gets code 0 and its own
creation timestamp as `date1`. -/
theorem charge_uncategorized_default_witness :
    resolveCharge parseNone chargeUncategorized =
      ⟨0, "", "", some ⟨2021, 42⟩, none⟩ :=
  charge_uncategorized_default parseNone chargeUncategorized
    rfl rfl rfl rfl rfl rfl rfl rfl

/-- A parse function agreeing with `time.Parse(time.RFC3339, ·)` on the one
RFC 3339 string used below: that string parses successfully. -/
def rfcParse : String → Option GoTime := fun s =>
  if s = "2023-01-02T03:04:05Z" then some ⟨2023, 99⟩ else none

/-- A charge whose only sub-object is a `roaming_contract` carrying its date
as an RFC 3339 string. -/
def chargeContractStringDate : MongoCharge :=
  { id := "c3", createdAt := ⟨2020, 0⟩, isDeleted := false,
    organizationId := "o3", price := ⟨2⟩, packageId := "p3", itemCode := 2,
    serviceCode := "svc", ediReturnInvoice := none, ediAttorney := none,
    roamingInvoice := none,
    roamingContract := some [("date", .str "2023-01-02T03:04:05Z")],
    roamingWaybill := none, roamingAct := none, roamingVerificationAct := none,
    roamingEmpowerment := none }

/-- C3 counterexample: a roaming-contract charge whose `date` arrives as an
RFC 3339 string that parses successfully, yet the resolver leaves `date1`
unpopulated — the string form is not accepted outside the roaming-invoice
branch. -/
theorem charge_string_date_cex :
    rfcParse "2023-01-02T03:04:05Z" = some ⟨2023, 99⟩ ∧
    chargeContractStringDate.roamingContract =
      some [("date", BsonVal.str "2023-01-02T03:04:05Z")] ∧
    (resolveChargeType rfcParse chargeContractStringDate).chargeType = 7 ∧
    (resolveChargeType rfcParse chargeContractStringDate).date1 = none ∧
    (resolveChargeType rfcParse chargeContractStringDate).date1 ≠
      some ⟨2023, 99⟩ := by
  refine ⟨by decide, rfl, rfl, rfl, by decide⟩

/-- C3 amended: only the roaming-invoice branch accepts a date both as a
native timestamp and as an RFC 3339 string (the string form is parsed and
only a successful parse populates `date1`); every other sub-object branch
populates its `date1`/`date2` only from a native timestamp and ignores the
string form. -/
theorem charge_string_date_amended (parse : String → Option GoTime)
    (c : MongoCharge) (m : SubObj) (t : GoTime) (s : String) :
    (c.roamingInvoice = some m → m.lookup "date" = some (.time t) →
      (resolveChargeType parse c).date1 = some t) ∧
    (c.roamingInvoice = some m → m.lookup "date" = some (.str s) →
      (resolveChargeType parse c).date1 = parse s) ∧
    (c.roamingInvoice = none → c.roamingContract = some m →
      m.lookup "date" = some (.time t) →
      (resolveChargeType parse c).date1 = some t) ∧
    (c.roamingInvoice = none → c.roamingContract = some m →
      m.lookup "date" = some (.str s) →
      (resolveChargeType parse c).date1 = none) ∧
    (c.roamingInvoice = none → c.roamingContract = none →
      c.roamingWaybill = some m → m.lookup "date" = some (.time t) →
      (resolveChargeType parse c).date1 = some t) ∧
    (c.roamingInvoice = none → c.roamingContract = none →
      c.roamingWaybill = some m → m.lookup "date" = some (.str s) →
      (resolveChargeType parse c).date1 = none) ∧
    (c.roamingInvoice = none → c.roamingContract = none →
      c.roamingWaybill = none → c.roamingAct = some m →
      m.lookup "date" = some (.time t) →
      (resolveChargeType parse c).date1 = some t) ∧
    (c.roamingInvoice = none → c.roamingContract = none →
      c.roamingWaybill = none → c.roamingAct = some m →
      m.lookup "date" = some (.str s) →
      (resolveChargeType parse c).date1 = none) ∧
    (c.roamingInvoice = none → c.roamingContract = none →
      c.roamingWaybill = none → c.roamingAct = none →
      c.roamingVerificationAct = some m → m.lookup "date" = some (.time t) →
      (resolveChargeType parse c).date1 = some t) ∧
    (c.roamingInvoice = none → c.roamingContract = none →
      c.roamingWaybill = none → c.roamingAct = none →
      c.roamingVerificationAct = some m → m.lookup "date" = some (.str s) →
      (resolveChargeType parse c).date1 = none) ∧
    (c.roamingInvoice = none → c.roamingContract = none →
      c.roamingWaybill = none → c.roamingAct = none →
      c.roamingVerificationAct = none → c.roamingEmpowerment = some m →
      m.lookup "start_date" = some (.time t) →
      (resolveChargeType parse c).date1 = some t) ∧
    (c.roamingInvoice = none → c.roamingContract = none →
      c.roamingWaybill = none → c.roamingAct = none →
      c.roamingVerificationAct = none → c.roamingEmpowerment = some m →
      m.lookup "start_date" = some (.str s) →
      (resolveChargeType parse c).date1 = none) ∧
    (c.roamingInvoice = none → c.roamingContract = none →
      c.roamingWaybill = none → c.roamingAct = none →
      c.roamingVerificationAct = none → c.roamingEmpowerment = some m →
      m.lookup "end_date" = some (.time t) →
      (resolveChargeType parse c).date2 = some t) ∧
    (c.roamingInvoice = none → c.roamingContract = none →
      c.roamingWaybill = none → c.roamingAct = none →
      c.roamingVerificationAct = none → c.roamingEmpowerment = some m →
      m.lookup "end_date" = some (.str s) →
      (resolveChargeType parse c).date2 = none) ∧
    (c.roamingInvoice = none → c.roamingContract = none →
      c.roamingWaybill = none → c.roamingAct = none →
      c.roamingVerificationAct = none → c.roamingEmpowerment = none →
      c.ediReturnInvoice = some m → m.lookup "date" = some (.time t) →
      (resolveChargeType parse c).date1 = some t) ∧
    (c.roamingInvoice = none → c.roamingContract = none →
      c.roamingWaybill = none → c.roamingAct = none →
      c.roamingVerificationAct = none → c.roamingEmpowerment = none →
      c.ediReturnInvoice = some m → m.lookup "date" = some (.str s) →
      (resolveChargeType parse c).date1 = none) ∧
    (c.roamingInvoice = none → c.roamingContract = none →
      c.roamingWaybill = none → c.roamingAct = none →
      c.roamingVerificationAct = none → c.roamingEmpowerment = none →
      c.ediReturnInvoice = none → c.ediAttorney = some m →
      m.lookup "start_date" = some (.time t) →
      (resolveChargeType parse c).date1 = some t) ∧
    (c.roamingInvoice = none → c.roamingContract = none →
      c.roamingWaybill = none → c.roamingAct = none →
      c.roamingVerificationAct = none → c.roamingEmpowerment = none →
      c.ediReturnInvoice = none → c.ediAttorney = some m →
      m.lookup "start_date" = some (.str s) →
      (resolveChargeType parse c).date1 = none) ∧
    (c.roamingInvoice = none → c.roamingContract = none →
      c.roamingWaybill = none → c.roamingAct = none →
      c.roamingVerificationAct = none → c.roamingEmpowerment = none →
      c.ediReturnInvoice = none → c.ediAttorney = some m →
      m.lookup "end_date" = some (.time t) →
      (resolveChargeType parse c).date2 = some t) ∧
    (c.roamingInvoice = none → c.roamingContract = none →
      c.roamingWaybill = none → c.roamingAct = none →
      c.roamingVerificationAct = none → c.roamingEmpowerment = none →
      c.ediReturnInvoice = none → c.ediAttorney = some m →
      m.lookup "end_date" = some (.str s) →
      (resolveChargeType parse c).date2 = none) := by
  obtain ⟨i, ca, dl, oi, pr, pk, ic, sc, f1, f2, f3, f4, f5, f6, f7, f8⟩ := c
  refine ⟨?_, ?_, ?_, ?_, ?_, ?_, ?_, ?_, ?_, ?_, ?_, ?_, ?_, ?_, ?_, ?_,
    ?_, ?_, ?_, ?_⟩ <;>
    (intros; subst_vars; simp [resolveChargeType, riDate1, getTime, getStr, *])

/-- C3 amended witness: a roaming-invoice charge with a parsable string date
gets that parse result as `date1`. -/
theorem charge_string_date_amended_witness :
    (resolveChargeType rfcParse
      { chargeRoamingInvoiceOnly with
        roamingInvoice :=
          some [("date", .str "2023-01-02T03:04:05Z")] }).date1 =
      some ⟨2023, 99⟩ := by
  have h := (charge_string_date_amended rfcParse
    { chargeRoamingInvoiceOnly with
      roamingInvoice := some [("date", .str "2023-01-02T03:04:05Z")] }
    [("date", .str "2023-01-02T03:04:05Z")] ⟨0, 0⟩
    "2023-01-02T03:04:05Z").2.1 rfl rfl
  rw [h]
  decide

/-- Decoded `paymeTransactions` document (main.go:841-857). -/
structure MongoPaymeTransaction where
  id : String
  createdAt : GoTime
  paymeTransactionId : String
  paymeCreatedAt : GoTime
  systemCompletedAt : Option GoTime
  state : Int
  amount : GoFloat
  paymentId : Option String
  organizationId : String
  reason : Int
  systemCanceledAt : Option GoTime
  deriving DecidableEq, Repr

/-- Destination `payme_transactions` row (models.go:148-160);
`paymeCreatedAt` is a mandatory (non-nullable) column. -/
structure PaymeTransaction where
  id : String
  createdAt : GoTime
  paymeTransactionId : String
  paymeCreatedAt : GoTime
  systemCompletedAt : Option GoTime
  state : Int
  amount : GoFloat
  paymentId : Option String
  organizationId : String
  reason : Int
  systemCanceledAt : Option GoTime
  deriving DecidableEq, Repr

/-- The fallback chain of main.go:871-883: the sanitized primary
`payme_created_at`, else the sanitized document `created_at`, else the current
time `now` (`time.Now()` at migration). -/
def resolvePaymeCreatedAt (now : GoTime) (pt : MongoPaymeTransaction) :
    GoTime :=
  match validateDateTime pt.paymeCreatedAt with
  | some v => v
  | none =>
    match validateDateTime pt.createdAt with
    | some v => v
    | none => now

/-- Construction of the destination row (main.go:885-907). -/
def buildPaymeTransaction (now : GoTime) (pt : MongoPaymeTransaction) :
    PaymeTransaction :=
  { id := pt.id
    createdAt := pt.createdAt
    paymeTransactionId := pt.paymeTransactionId
    paymeCreatedAt := resolvePaymeCreatedAt now pt
    systemCompletedAt := pt.systemCompletedAt.bind validateDateTime
    state := pt.state
    amount := pt.amount
    paymentId := pt.paymentId
    organizationId := pt.organizationId
    reason := pt.reason
    systemCanceledAt := pt.systemCanceledAt.bind validateDateTime }

/-- C6: the stored mandatory `payme_created_at` is never the zero value (as
long as the substituted current time is not); if the primary source value
passes the sanitizer it is stored unchanged, if it fails the document's own
`created_at` is used, and if that also fails the current time is stored. -/
theorem payme_created_at_fallback (now : GoTime) (pt : MongoPaymeTransaction) :
    (now.isZero = false →
      ((buildPaymeTransaction now pt).paymeCreatedAt).isZero = false) ∧
    (∀ v, validateDateTime pt.paymeCreatedAt = some v →
      (buildPaymeTransaction now pt).paymeCreatedAt = pt.paymeCreatedAt) ∧
    (∀ v, validateDateTime pt.paymeCreatedAt = none →
      validateDateTime pt.createdAt = some v →
      (buildPaymeTransaction now pt).paymeCreatedAt = pt.createdAt) ∧
    (validateDateTime pt.paymeCreatedAt = none →
      validateDateTime pt.createdAt = none →
      (buildPaymeTransaction now pt).paymeCreatedAt = now) := by
  have hb : (buildPaymeTransaction now pt).paymeCreatedAt
      = resolvePaymeCreatedAt now pt := rfl
  refine ⟨?_, ?_, ?_, ?_⟩
  · intro hn
    rw [hb]
    unfold resolvePaymeCreatedAt
    cases hv : validateDateTime pt.paymeCreatedAt with
    | some v =>
      obtain ⟨hveq, hz⟩ := validateDateTime_some hv
      simpa [hveq] using hz
    | none =>
      cases hw : validateDateTime pt.createdAt with
      | some w =>
        obtain ⟨hweq, hz⟩ := validateDateTime_some hw
        simpa [hweq] using hz
      | none => simpa using hn
  · intro v hv
    rw [hb]
    unfold resolvePaymeCreatedAt
    rw [hv]
    exact (validateDateTime_some hv).1
  · intro v hv hw
    rw [hb]
    unfold resolvePaymeCreatedAt
    rw [hv, hw]
    exact (validateDateTime_some hw).1
  · intro hv hw
    rw [hb]
    unfold resolvePaymeCreatedAt
    rw [hv, hw]

/-- A payme transaction whose primary creation timestamp (year 1) and own
creation timestamp (year 2200) are both invalid. -/
def paymeDoubleInvalid : MongoPaymeTransaction :=
  { id := "t1", createdAt := ⟨2200, 0⟩, paymeTransactionId := "pay-1",
    paymeCreatedAt := ⟨1, 0⟩, systemCompletedAt := none, state := 1,
    amount := ⟨5⟩, paymentId := none, organizationId := "o1", reason := 0,
    systemCanceledAt := none }

/-- C6 witness: with both source timestamps invalid, the stored value is the
current time exactly, and it is not the zero value. -/
theorem payme_created_at_fallback_witness :
    (buildPaymeTransaction ⟨2024, 7⟩ paymeDoubleInvalid).paymeCreatedAt =
      ⟨2024, 7⟩ ∧
    ((buildPaymeTransaction ⟨2024, 7⟩ paymeDoubleInvalid).paymeCreatedAt).isZero
      = false :=
  ⟨(payme_created_at_fallback ⟨2024, 7⟩ paymeDoubleInvalid).2.2.2
      (by decide) (by decide),
   (payme_created_at_fallback ⟨2024, 7⟩ paymeDoubleInvalid).1 (by decide)⟩

/-- Decoded `services` document (main.go:162 via `mongoService`,
models.go:202-207). -/
structure MongoService where
  id : String
  createdAt : GoTime
  name : String
  code : String
  deriving DecidableEq, Repr

/-- Destination `services` row (models.go:13-18); `code` carries a unique
index. -/
structure Service where
  id : String
  createdAt : GoTime
  name : String
  code : String
  deriving DecidableEq, Repr

/-- `checkRecordExists` (main.go:128-135): does the table hold a row with the
given primary key?  (The warned-and-default-false read-failure path concerns
the external store and is not modelled.) -/
def checkRecordExists {α : Type} (getId : α → String) (table : List α)
    (id : String) : Bool :=
  table.any (fun r => getId r == id)

/-- `db.Create` on the `services` table (main.go:183): fails on a primary-key
or unique-`code` violation, else appends the row. -/
def createService (table : List Service) (row : Service) :
    Except String (List Service) :=
  if table.any (fun r => r.id == row.id || r.code == row.code) then
    .error ("service " ++ row.id ++ " insert failed")
  else
    .ok (table ++ [row])

/-- Migration-visible state of the `services` step: destination table plus
the moved/skipped counters of main.go:159-160. -/
structure ServicesState where
  services : List Service
  moved : Nat
  skipped : Nat
  deriving DecidableEq, Repr

/-- One iteration of the `services` loop (main.go:161-188). -/
def migrateServiceDoc (st : ServicesState) (s : MongoService) :
    Except String ServicesState :=
  if checkRecordExists (fun r : Service => r.id) st.services s.id then
    .ok { st with skipped := st.skipped + 1 }
  else
    match createService st.services ⟨s.id, s.createdAt, s.name, s.code⟩ with
    | .error e => .error e
    | .ok tbl => .ok { st with services := tbl, moved := st.moved + 1 }

/-- The full `services` stream loop (`migrateServices`, main.go:146-193). -/
def migrateServices (docs : List MongoService) (st : ServicesState) :
    Except String ServicesState :=
  match docs with
  | [] => .ok st
  | d :: rest =>
    match migrateServiceDoc st d with
    | .error e => .error e
    | .ok st2 => migrateServices rest st2

/-- C5: when a document's primary key already exists in the destination, the
migrator leaves the destination table unchanged (no insert, no update),
increments the skipped counter and not the moved counter, and continues with
the remaining documents. -/
theorem migrate_skip_existing (st : ServicesState) (s : MongoService)
    (docs : List MongoService)
    (h : checkRecordExists (fun r : Service => r.id) st.services s.id = true) :
    migrateServiceDoc st s = .ok { st with skipped := st.skipped + 1 } ∧
    migrateServices (s :: docs) st =
      migrateServices docs { st with skipped := st.skipped + 1 } := by
  constructor
  · unfold migrateServiceDoc
    simp [h]
  · have h1 : migrateServiceDoc st s =
        Except.ok { st with skipped := st.skipped + 1 } := by
      unfold migrateServiceDoc
      simp [h]
    show (match migrateServiceDoc st s with
      | Except.error e => (Except.error e : Except String ServicesState)
      | Except.ok st2 => migrateServices docs st2) =
      migrateServices docs { st with skipped := st.skipped + 1 }
    rw [h1]

/-- C5 witness: a service document whose id is already present is skipped,
leaving the single-row table and the moved counter untouched. -/
theorem migrate_skip_existing_witness :
    migrateServiceDoc ⟨[⟨"s1", ⟨2020, 0⟩, "Svc", "c1"⟩], 4, 0⟩
        ⟨"s1", ⟨2021, 1⟩, "Other", "c9"⟩ =
      .ok ⟨[⟨"s1", ⟨2020, 0⟩, "Svc", "c1"⟩], 4, 1⟩ ∧
    migrateServices [⟨"s1", ⟨2021, 1⟩, "Other", "c9"⟩]
        ⟨[⟨"s1", ⟨2020, 0⟩, "Svc", "c1"⟩], 4, 0⟩ =
      .ok ⟨[⟨"s1", ⟨2020, 0⟩, "Svc", "c1"⟩], 4, 1⟩ :=
  ⟨(migrate_skip_existing ⟨[⟨"s1", ⟨2020, 0⟩, "Svc", "c1"⟩], 4, 0⟩
      ⟨"s1", ⟨2021, 1⟩, "Other", "c9"⟩ [] (by decide)).1,
   (migrate_skip_existing ⟨[⟨"s1", ⟨2020, 0⟩, "Svc", "c1"⟩], 4, 0⟩
      ⟨"s1", ⟨2021, 1⟩, "Other", "c9"⟩ [] (by decide)).2⟩

/-- Embedded `service_demo_uses` entry of an organization document
(models.go:237-241). -/
structure MongoDemoUse where
  id : String
  name : String
  code : String
  deriving DecidableEq, Repr

/-- Decoded `organizations` document (models.go:209-242); the decoded but
never-read `active_packages` array is omitted, `offer_info` is flattened to
its two read fields. -/
structure MongoOrganization where
  id : String
  createdAt : GoTime
  updatedAt : GoTime
  deletedAt : Option GoTime
  isDeleted : Bool
  name : String
  inn : Option String
  pinfl : Option String
  balance : GoFloat
  fiscalizationBalance : GoFloat
  reservedFiscalizationBalance : GoFloat
  totalPayments : GoFloat
  creditAmount : GoFloat
  organizationCode : String
  referralAgentCode : Option String
  whiteLabel : String
  offerInfoNumber : String
  offerInfoDate : Option GoTime
  serviceDemoUses : List MongoDemoUse
  deriving DecidableEq, Repr

/-- Destination `organizations` row (models.go:22-41). -/
structure Organization where
  id : String
  createdAt : GoTime
  updatedAt : GoTime
  deletedAt : Option GoTime
  isDeleted : Bool
  name : String
  inn : Option String
  pinfl : Option String
  balance : GoFloat
  fiscalizationBalance : GoFloat
  reservedFiscalizationBalance : GoFloat
  totalPayments : GoFloat
  creditAmount : GoFloat
  organizationCode : String
  referralAgentCode : Option String
  whiteLabel : String
  offerNumber : String
  offerDate : Option GoTime
  deriving DecidableEq, Repr

/-- Destination `organization_service_demo_uses` row (models.go:45-51).  The
model declares no primary key and no unique index. -/
structure OrganizationServiceDemoUses where
  organizationId : String
  serviceCode : String
  usedAt : GoTime
  deriving DecidableEq, Repr

/-- `Clauses(OnConflict{DoNothing: true}).Create`: the insert is silently
dropped exactly when the new row collides with an existing one under the
table's declared unique keys (`conflict`); otherwise the row is appended. -/
def insertOrIgnore {α : Type} (conflict : α → α → Bool) (table : List α)
    (row : α) : List α :=
  if table.any (fun r => conflict row r) then table else table ++ [row]

/-- `organization_service_demo_uses` declares neither a primary key nor a
unique index (models.go:45-51), so no two rows ever conflict. -/
def demoUseConflict :
    OrganizationServiceDemoUses → OrganizationServiceDemoUses → Bool :=
  fun _ _ => false

/-- The demo-use row built at main.go:227-231 / 279-283: `used_at` is the
organization's own `created_at`. -/
def mkDemoUse (orgId : String) (createdAt : GoTime) (s : MongoDemoUse) :
    OrganizationServiceDemoUses :=
  ⟨orgId, s.code, createdAt⟩

/-- The demo-use insert loop (main.go:226-237 and 278-289). -/
def insertDemoUses (orgId : String) (createdAt : GoTime)
    (uses : List MongoDemoUse) (tbl : List OrganizationServiceDemoUses) :
    List OrganizationServiceDemoUses :=
  uses.foldl
    (fun t s => insertOrIgnore demoUseConflict t (mkDemoUse orgId createdAt s))
    tbl

/-- Field mapping of the parent organization row (main.go:241-270). -/
def buildOrganization (o : MongoOrganization) : Organization :=
  { id := o.id
    createdAt := o.createdAt
    updatedAt := o.updatedAt
    deletedAt := o.deletedAt.bind validateDateTime
    isDeleted := o.isDeleted
    name := o.name
    inn := o.inn
    pinfl := o.pinfl
    balance := o.balance
    fiscalizationBalance := o.fiscalizationBalance
    reservedFiscalizationBalance := o.reservedFiscalizationBalance
    totalPayments := o.totalPayments
    creditAmount := o.creditAmount
    organizationCode := o.organizationCode
    referralAgentCode := o.referralAgentCode
    whiteLabel := o.whiteLabel
    offerNumber := o.offerInfoNumber
    offerDate := o.offerInfoDate.bind validateDateTime }

/-- Migration-visible state of the `organizations` step (main.go:209-212). -/
structure OrgState where
  organizations : List Organization
  demoUses : List OrganizationServiceDemoUses
  moved : Nat
  skipped : Nat
  demoUsesMoved : Nat
  deriving DecidableEq, Repr

/-- One iteration of the `organizations` loop (main.go:213-292).  The parent
insert is modelled as a plain append: the table's only unique key is the
primary key, which the guarding existence check has just found absent; the
child inserts use insert-or-ignore and never fail.  `demoUsesMoved` grows by
one per child written, i.e. by the embedded array's length. -/
def migrateOrganizationDoc (st : OrgState) (o : MongoOrganization) :
    OrgState :=
  if checkRecordExists (fun r : Organization => r.id) st.organizations o.id
  then
    { st with
      skipped := st.skipped + 1
      demoUses := insertDemoUses o.id o.createdAt o.serviceDemoUses st.demoUses
      demoUsesMoved := st.demoUsesMoved + o.serviceDemoUses.length }
  else
    { st with
      organizations := st.organizations ++ [buildOrganization o]
      moved := st.moved + 1
      demoUses := insertDemoUses o.id o.createdAt o.serviceDemoUses st.demoUses
      demoUsesMoved := st.demoUsesMoved + o.serviceDemoUses.length }

/-- The full `organizations` stream loop (`migrateOrganizations`,
main.go:195-299). -/
def migrateOrganizations (docs : List MongoOrganization) (st : OrgState) :
    OrgState :=
  docs.foldl migrateOrganizationDoc st

/-- The destination state before the first `organizations` run. -/
def emptyOrgState : OrgState := ⟨[], [], 0, 0, 0⟩

/-- Embedded package item of a package document (models.go:244-252). -/
structure MongoPackageItem where
  name : String
  code : Int
  isOverLimitAllowed : Bool
  overLimitPrice : GoFloat
  brvRate : GoFloat
  isUnlimited : Bool
  itemLimit : Int
  deriving DecidableEq, Repr

/-- Embedded `on_activation_bonus_packages` entry (models.go:274-276),
reduced to the one read field, the referenced package id. -/
structure MongoBonusPackage where
  id : String
  deriving DecidableEq, Repr

/-- Decoded `packages` document (models.go:254-277); the nested `service`
sub-document is flattened to its read `code` field. -/
structure MongoPackage where
  id : String
  createdAt : GoTime
  isDeleted : Bool
  name : String
  price : GoFloat
  brvRate : GoFloat
  durationDays : Int
  durationMonths : Int
  isDemo : Bool
  isPublic : Bool
  serviceCode : String
  items : List MongoPackageItem
  defaultSetOnNewOrganization : Bool
  onActivationBonusPackages : List MongoBonusPackage
  deriving DecidableEq, Repr

/-- Destination `packages` row (models.go:53-66). -/
structure Package where
  id : String
  createdAt : GoTime
  isDeleted : Bool
  name : String
  price : GoFloat
  brvRate : GoFloat
  durationDays : Int
  durationMonths : Int
  isDemo : Bool
  isPublic : Bool
  serviceCode : String
  defaultSetOnNewOrganization : Bool
  deriving DecidableEq, Repr

/-- Destination `package_items` row (models.go:70-82): `id` is the declared
primary key and the table's only unique key. -/
structure PackageItem where
  id : String
  packageId : String
  name : String
  code : Int
  isOverLimitAllowed : Bool
  overLimitPrice : GoFloat
  brvRate : GoFloat
  isUnlimited : Bool
  itemLimit : Int
  deriving DecidableEq, Repr

/-- Destination `package_activation_bonus_packages` row (models.go:84-89):
no primary key, no unique index. -/
structure PackageActivationBonusPackage where
  packageId : String
  bonusPackageId : String
  deriving DecidableEq, Repr

/-- The package-item row built at main.go:336-345 / 389-398: the Go struct
literal never assigns `ID`, which therefore keeps its zero value `""`. -/
def mkPackageItem (pkgId : String) (item : MongoPackageItem) : PackageItem :=
  { id := ""
    packageId := pkgId
    name := item.name
    code := item.code
    isOverLimitAllowed := item.isOverLimitAllowed
    overLimitPrice := item.overLimitPrice
    brvRate := item.brvRate
    isUnlimited := item.isUnlimited
    itemLimit := item.itemLimit }

/-- `package_items` conflicts exactly on its primary key `id`
(models.go:71). -/
def pkgItemConflict (row r : PackageItem) : Bool :=
  row.id == r.id

/-- `package_activation_bonus_packages` declares no unique key
(models.go:84-87), so no two rows ever conflict. -/
def bonusConflict :
    PackageActivationBonusPackage → PackageActivationBonusPackage → Bool :=
  fun _ _ => false

/-- The package-item insert loop (main.go:335-351 and 388-404). -/
def insertPackageItems (pkgId : String) (items : List MongoPackageItem)
    (tbl : List PackageItem) : List PackageItem :=
  items.foldl
    (fun t it => insertOrIgnore pkgItemConflict t (mkPackageItem pkgId it))
    tbl

/-- The bonus-package insert loop (main.go:353-363 and 407-417). -/
def insertBonusPackages (pkgId : String) (bs : List MongoBonusPackage)
    (tbl : List PackageActivationBonusPackage) :
    List PackageActivationBonusPackage :=
  bs.foldl
    (fun t b =>
      insertOrIgnore bonusConflict t ⟨pkgId, b.id⟩)
    tbl

/-- Field mapping of the parent package row (main.go:367-380). -/
def buildPackage (p : MongoPackage) : Package :=
  { id := p.id
    createdAt := p.createdAt
    isDeleted := p.isDeleted
    name := p.name
    price := p.price
    brvRate := p.brvRate
    durationDays := p.durationDays
    durationMonths := p.durationMonths
    isDemo := p.isDemo
    isPublic := p.isPublic
    serviceCode := p.serviceCode
    defaultSetOnNewOrganization := p.defaultSetOnNewOrganization }

/-- Migration-visible state of the `packages` step (main.go:317-321). -/
structure PkgState where
  packages : List Package
  items : List PackageItem
  bonus : List PackageActivationBonusPackage
  moved : Nat
  skipped : Nat
  itemsMoved : Nat
  bonusMoved : Nat
  deriving DecidableEq, Repr

/-- One iteration of the `packages` loop (main.go:322-420); both branches
write the children, only the fresh branch writes the parent.  As for
organizations, the guarded parent insert is modelled total. -/
def migratePackageDoc (st : PkgState) (p : MongoPackage) : PkgState :=
  if checkRecordExists (fun r : Package => r.id) st.packages p.id then
    { st with
      skipped := st.skipped + 1
      items := insertPackageItems p.id p.items st.items
      itemsMoved := st.itemsMoved + p.items.length
      bonus := insertBonusPackages p.id p.onActivationBonusPackages st.bonus
      bonusMoved := st.bonusMoved + p.onActivationBonusPackages.length }
  else
    { st with
      packages := st.packages ++ [buildPackage p]
      moved := st.moved + 1
      items := insertPackageItems p.id p.items st.items
      itemsMoved := st.itemsMoved + p.items.length
      bonus := insertBonusPackages p.id p.onActivationBonusPackages st.bonus
      bonusMoved := st.bonusMoved + p.onActivationBonusPackages.length }

/-- The full `packages` stream loop (`migratePackages`, main.go:301-429). -/
def migratePackages (docs : List MongoPackage) (st : PkgState) : PkgState :=
  docs.foldl migratePackageDoc st

/-- The destination state before the first `packages` run. -/
def emptyPkgState : PkgState := ⟨[], [], [], 0, 0, 0, 0⟩

/-- Demo-use inserts never conflict, so every insert appends one row. -/
theorem insertDemoUses_length (orgId : String) (ca : GoTime)
    (uses : List MongoDemoUse) (tbl : List OrganizationServiceDemoUses) :
    (insertDemoUses orgId ca uses tbl).length = tbl.length + uses.length := by
  induction uses generalizing tbl with
  | nil => simp [insertDemoUses]
  | cons u rest ih =>
    have h1 : insertDemoUses orgId ca (u :: rest) tbl
        = insertDemoUses orgId ca rest (tbl ++ [mkDemoUse orgId ca u]) := by
      simp [insertDemoUses, insertOrIgnore, demoUseConflict]
    rw [h1, ih]
    simp
    omega

/-- Bonus-package inserts never conflict, so every insert appends one row. -/
theorem insertBonusPackages_length (pkgId : String)
    (bs : List MongoBonusPackage) (tbl : List PackageActivationBonusPackage) :
    (insertBonusPackages pkgId bs tbl).length = tbl.length + bs.length := by
  induction bs generalizing tbl with
  | nil => simp [insertBonusPackages]
  | cons b rest ih =>
    have h1 : insertBonusPackages pkgId (b :: rest) tbl
        = insertBonusPackages pkgId rest (tbl ++ [⟨pkgId, b.id⟩]) := by
      simp [insertBonusPackages, insertOrIgnore, bonusConflict]
    rw [h1, ih]
    simp
    omega

/-- Once the table holds a row with the empty-string primary key, every
further package-item insert collides with it and is dropped. -/
theorem insertPackageItems_absorbed (pkgId : String)
    (items : List MongoPackageItem) (tbl : List PackageItem)
    (h : (tbl.any fun r => ("" : String) == r.id) = true) :
    insertPackageItems pkgId items tbl = tbl := by
  induction items with
  | nil => rfl
  | cons it rest ih =>
    have hstep : insertOrIgnore pkgItemConflict tbl (mkPackageItem pkgId it)
        = tbl := by
      unfold insertOrIgnore
      have hc : (tbl.any fun r =>
          pkgItemConflict (mkPackageItem pkgId it) r) = true := by
        simpa [pkgItemConflict, mkPackageItem] using h
      simp [hc]
    calc insertPackageItems pkgId (it :: rest) tbl
        = insertPackageItems pkgId rest
            (insertOrIgnore pkgItemConflict tbl (mkPackageItem pkgId it)) :=
          rfl
      _ = insertPackageItems pkgId rest tbl := by rw [hstep]
      _ = tbl := ih

/-- The package-item insert loop preserves the invariant that the table has
at most one row and all its rows carry the empty-string primary key. -/
theorem insertPackageItems_inv (pkgId : String)
    (items : List MongoPackageItem) (tbl : List PackageItem)
    (h : tbl.length ≤ 1 ∧ ∀ r ∈ tbl, r.id = "") :
    (insertPackageItems pkgId items tbl).length ≤ 1 ∧
    ∀ r ∈ insertPackageItems pkgId items tbl, r.id = "" := by
  cases items with
  | nil => exact h
  | cons it rest =>
    cases tbl with
    | nil =>
      have h1 : insertPackageItems pkgId (it :: rest) ([] : List PackageItem)
          = insertPackageItems pkgId rest [mkPackageItem pkgId it] := rfl
      have h2 : insertPackageItems pkgId rest [mkPackageItem pkgId it]
          = [mkPackageItem pkgId it] :=
        insertPackageItems_absorbed pkgId rest _ (by simp [mkPackageItem])
      rw [h1, h2]
      refine ⟨by simp, ?_⟩
      intro r hr
      rw [List.mem_singleton] at hr
      rw [hr]
      rfl
    | cons r0 tl =>
      have htl : tl = [] := by
        have hlen := h.1
        simp only [List.length_cons] at hlen
        have h0 : tl.length = 0 := by omega
        exact List.length_eq_zero.mp h0
      subst htl
      have hid : r0.id = "" := h.2 r0 (by simp)
      have habs : insertPackageItems pkgId (it :: rest) [r0] = [r0] :=
        insertPackageItems_absorbed pkgId (it :: rest) [r0] (by simp [hid])
      rw [habs]
      exact h

/-- The whole `packages` run preserves the package-items invariant. -/
theorem migratePackages_items_inv (docs : List MongoPackage) (st : PkgState)
    (h : st.items.length ≤ 1 ∧ ∀ r ∈ st.items, r.id = "") :
    (migratePackages docs st).items.length ≤ 1 ∧
    ∀ r ∈ (migratePackages docs st).items, r.id = "" := by
  induction docs generalizing st with
  | nil => exact h
  | cons d rest ih =>
    have hstep : (migratePackageDoc st d).items.length ≤ 1 ∧
        ∀ r ∈ (migratePackageDoc st d).items, r.id = "" := by
      unfold migratePackageDoc
      split
      · exact insertPackageItems_inv d.id d.items st.items h
      · exact insertPackageItems_inv d.id d.items st.items h
    exact ih (migratePackageDoc st d) hstep

/-- C10: the package migrator never assigns the primary-key `id` of the
`package_items` rows it builds — they all carry the empty string — and
consequently, under the insert-or-ignore write, a destination starting empty
ends any `packages` run with at most one `package_items` row. -/
theorem package_items_single_row :
    (∀ pkgId item, (mkPackageItem pkgId item).id = "") ∧
    ∀ docs : List MongoPackage,
      ((migratePackages docs emptyPkgState).items).length ≤ 1 := by
  constructor
  · intro pkgId item
    rfl
  · intro docs
    exact (migratePackages_items_inv docs emptyPkgState
      ⟨by simp [emptyPkgState], by simp [emptyPkgState]⟩).1

/-- An organization document with one embedded demo-use entry. -/
def orgDoc : MongoOrganization :=
  { id := "org-1", createdAt := ⟨2022, 1⟩, updatedAt := ⟨2022, 1⟩,
    deletedAt := none, isDeleted := false, name := "Acme", inn := none,
    pinfl := none, balance := ⟨0⟩, fiscalizationBalance := ⟨0⟩,
    reservedFiscalizationBalance := ⟨0⟩, totalPayments := ⟨0⟩,
    creditAmount := ⟨0⟩, organizationCode := "OC",
    referralAgentCode := none, whiteLabel := "", offerInfoNumber := "",
    offerInfoDate := none, serviceDemoUses := [⟨"d1", "Demo", "svc-1"⟩] }

/-- A package document with two distinct embedded items and one bonus link. -/
def pkgDoc : MongoPackage :=
  { id := "pkg-1", createdAt := ⟨2022, 2⟩, isDeleted := false,
    name := "Basic", price := ⟨10⟩, brvRate := ⟨0⟩, durationDays := 30,
    durationMonths := 0, isDemo := false, isPublic := true,
    serviceCode := "svc-1",
    items := [⟨"item-a", 1, false, ⟨0⟩, ⟨0⟩, false, 10⟩,
              ⟨"item-b", 2, false, ⟨0⟩, ⟨0⟩, true, 0⟩],
    defaultSetOnNewOrganization := false,
    onActivationBonusPackages := [⟨"bonus-1"⟩] }

/-- C2 counterexample: an organization with N = 1 embedded demo use yields 2
demo-use rows after two runs, and a package with N = 2 distinct embedded
items yields 1 `package_items` row — never the claimed N. -/
theorem child_rows_rerun_cex :
    orgDoc.serviceDemoUses.length = 1 ∧
    ((migrateOrganizations [orgDoc]
        (migrateOrganizations [orgDoc] emptyOrgState)).demoUses).length = 2 ∧
    pkgDoc.items.length = 2 ∧
    ((migratePackages [pkgDoc]
        (migratePackages [pkgDoc] emptyPkgState)).items).length = 1 := by
  decide

/-- Running the same-items insert loop twice from empty leaves exactly
`min 1 N` rows: the first item occupies the empty-string key, all others
collide with it. -/
theorem insertPackageItems_twice_len (pkgId : String)
    (items : List MongoPackageItem) :
    (insertPackageItems pkgId items
      (insertPackageItems pkgId items [])).length = min 1 items.length := by
  cases items with
  | nil => rfl
  | cons it rest =>
    have h1 : insertPackageItems pkgId (it :: rest) ([] : List PackageItem)
        = [mkPackageItem pkgId it] := by
      calc insertPackageItems pkgId (it :: rest) ([] : List PackageItem)
          = insertPackageItems pkgId rest [mkPackageItem pkgId it] := rfl
        _ = [mkPackageItem pkgId it] :=
            insertPackageItems_absorbed pkgId rest _ (by simp [mkPackageItem])
    rw [h1,
      insertPackageItems_absorbed pkgId (it :: rest) _ (by simp [mkPackageItem])]
    simp [Nat.min_def]

/-- C2 amended: re-running the migration over the same source duplicates the
demo-use and bonus child rows (2·N rows after two runs: the insert-or-ignore
write conflicts only on declared unique keys, and these child tables declare
none), while `package_items` collapses to `min 1 N` rows (all constructed
rows share the empty-string primary key); deduplication keyed by the full
column tuple does not hold. -/
theorem child_rows_rerun_amended (o : MongoOrganization) (p : MongoPackage) :
    ((migrateOrganizations [o]
        (migrateOrganizations [o] emptyOrgState)).demoUses).length
      = 2 * o.serviceDemoUses.length ∧
    ((migratePackages [p]
        (migratePackages [p] emptyPkgState)).bonus).length
      = 2 * p.onActivationBonusPackages.length ∧
    ((migratePackages [p]
        (migratePackages [p] emptyPkgState)).items).length
      = min 1 p.items.length := by
  have horg : (migrateOrganizations [o] emptyOrgState).organizations
      = [buildOrganization o] := by
    simp [migrateOrganizations, migrateOrganizationDoc, emptyOrgState,
      checkRecordExists]
  have d1 : (migrateOrganizations [o] emptyOrgState).demoUses
      = insertDemoUses o.id o.createdAt o.serviceDemoUses [] := by
    simp [migrateOrganizations, migrateOrganizationDoc, emptyOrgState,
      checkRecordExists]
  have hex1 : checkRecordExists (fun r : Organization => r.id)
      (migrateOrganizations [o] emptyOrgState).organizations o.id = true := by
    rw [horg]
    simp [checkRecordExists, buildOrganization]
  have d2 : (migrateOrganizations [o]
        (migrateOrganizations [o] emptyOrgState)).demoUses
      = insertDemoUses o.id o.createdAt o.serviceDemoUses
          (migrateOrganizations [o] emptyOrgState).demoUses := by
    show (migrateOrganizationDoc (migrateOrganizations [o] emptyOrgState)
      o).demoUses = _
    unfold migrateOrganizationDoc
    simp [hex1]
  have hpkg : (migratePackages [p] emptyPkgState).packages
      = [buildPackage p] := by
    simp [migratePackages, migratePackageDoc, emptyPkgState,
      checkRecordExists]
  have b1 : (migratePackages [p] emptyPkgState).bonus
      = insertBonusPackages p.id p.onActivationBonusPackages [] := by
    simp [migratePackages, migratePackageDoc, emptyPkgState,
      checkRecordExists]
  have i1 : (migratePackages [p] emptyPkgState).items
      = insertPackageItems p.id p.items [] := by
    simp [migratePackages, migratePackageDoc, emptyPkgState,
      checkRecordExists]
  have hex2 : checkRecordExists (fun r : Package => r.id)
      (migratePackages [p] emptyPkgState).packages p.id = true := by
    rw [hpkg]
    simp [checkRecordExists, buildPackage]
  have b2 : (migratePackages [p]
        (migratePackages [p] emptyPkgState)).bonus
      = insertBonusPackages p.id p.onActivationBonusPackages
          (migratePackages [p] emptyPkgState).bonus := by
    show (migratePackageDoc (migratePackages [p] emptyPkgState) p).bonus = _
    unfold migratePackageDoc
    simp [hex2]
  have i2 : (migratePackages [p]
        (migratePackages [p] emptyPkgState)).items
      = insertPackageItems p.id p.items
          (migratePackages [p] emptyPkgState).items := by
    show (migratePackageDoc (migratePackages [p] emptyPkgState) p).items = _
    unfold migratePackageDoc
    simp [hex2]
  refine ⟨?_, ?_, ?_⟩
  · rw [d2, d1, insertDemoUses_length, insertDemoUses_length]
    simp
    omega
  · rw [b2, b1, insertBonusPackages_length, insertBonusPackages_length]
    simp
    omega
  · rw [i2, i1]
    exact insertPackageItems_twice_len p.id p.items

/-- The orchestrator loop of `migrateAll` (main.go:98-104): run the named
steps in order; on the first failing step, stop and wrap its error with the
step name. -/
def runSteps {σ : Type} (steps : List (String × (σ → Except String σ)))
    (s : σ) : Except String σ :=
  match steps with
  | [] => .ok s
  | (name, f) :: rest =>
    match f s with
    | .error e => .error ("migration " ++ name ++ " failed: " ++ e)
    | .ok s2 => runSteps rest s2

/-- The ten per-entity migrators handed to the orchestrator, abstracted as
state transformers over the destination state `σ`. -/
structure MigrationSteps (σ : Type) where
  services : σ → Except String σ
  organizations : σ → Except String σ
  packages : σ → Except String σ
  boughtPackages : σ → Except String σ
  charges : σ → Except String σ
  payments : σ → Except String σ
  paymeTransactions : σ → Except String σ
  organizationBalanceBindings : σ → Except String σ
  creditUpdates : σ → Except String σ
  bankPaymentAutoApplyErrors : σ → Except String σ

/-- The hard-coded `migrations` slice of main.go:82-96: name/function pairs
in dependency order. -/
def migrationList {σ : Type} (fns : MigrationSteps σ) :
    List (String × (σ → Except String σ)) :=
  [("services", fns.services),
   ("organizations", fns.organizations),
   ("packages", fns.packages),
   ("bought-packages", fns.boughtPackages),
   ("charges", fns.charges),
   ("payments", fns.payments),
   ("payme-transactions", fns.paymeTransactions),
   ("organization-balance-bindings", fns.organizationBalanceBindings),
   ("credit-updates", fns.creditUpdates),
   ("bank-payments-auto-apply-errors", fns.bankPaymentAutoApplyErrors)]

/-- `migrateAll` (main.go:80-107). -/
def migrateAll {σ : Type} (fns : MigrationSteps σ) (s : σ) :
    Except String σ :=
  runSteps (migrationList fns) s

/-- If the steps before a failing step succeed, the whole run stops at the
failing step with its name wrapped around the cause. -/
theorem runSteps_append_error {σ : Type}
    (pre : List (String × (σ → Except String σ))) (name : String)
    (f : σ → Except String σ)
    (rest : List (String × (σ → Except String σ))) (s s2 : σ) (e : String)
    (hpre : runSteps pre s = .ok s2) (hf : f s2 = .error e) :
    runSteps (pre ++ (name, f) :: rest) s =
      .error ("migration " ++ name ++ " failed: " ++ e) := by
  induction pre generalizing s with
  | nil =>
    simp only [runSteps, Except.ok.injEq] at hpre
    subst hpre
    simp [runSteps, hf]
  | cons hd tl ih =>
    obtain ⟨n, g⟩ := hd
    cases hg : g s with
    | error e2 =>
      simp [runSteps, hg] at hpre
    | ok s3 =>
      simp only [runSteps, hg] at hpre
      simp only [List.cons_append, runSteps, hg]
      exact ih s3 hpre

/-- C7: the orchestrator's step list carries exactly the ten migrations in
the fixed dependency order, and when the steps before some step succeed and
that step fails, the whole pipeline returns an error wrapping the failed
step's name around the underlying cause — independently of the steps that
would have come after, which are never run. -/
theorem migrate_all_order_and_abort {σ : Type} (fns : MigrationSteps σ)
    (s : σ) :
    ((migrationList fns).map Prod.fst =
      ["services", "organizations", "packages", "bought-packages", "charges",
       "payments", "payme-transactions", "organization-balance-bindings",
       "credit-updates", "bank-payments-auto-apply-errors"]) ∧
    (∀ (pre : List (String × (σ → Except String σ))) (name : String)
       (f : σ → Except String σ)
       (rest rest2 : List (String × (σ → Except String σ))) (s2 : σ)
       (e : String),
      migrationList fns = pre ++ (name, f) :: rest →
      runSteps pre s = Except.ok s2 →
      f s2 = Except.error e →
      migrateAll fns s =
        Except.error ("migration " ++ name ++ " failed: " ++ e) ∧
      runSteps (pre ++ (name, f) :: rest2) s =
        Except.error ("migration " ++ name ++ " failed: " ++ e)) := by
  refine ⟨rfl, ?_⟩
  intro pre name f rest rest2 s2 e hlist hpre hf
  constructor
  · unfold migrateAll
    rw [hlist]
    exact runSteps_append_error pre name f rest s s2 e hpre hf
  · exact runSteps_append_error pre name f rest2 s s2 e hpre hf

/-- A concrete step assignment whose first step fails. -/
def stepsBoom : MigrationSteps Nat :=
  { services := fun _ => .error "boom"
    organizations := fun n => .ok n
    packages := fun n => .ok n
    boughtPackages := fun n => .ok n
    charges := fun n => .ok n
    payments := fun n => .ok n
    paymeTransactions := fun n => .ok n
    organizationBalanceBindings := fun n => .ok n
    creditUpdates := fun n => .ok n
    bankPaymentAutoApplyErrors := fun n => .ok n }

/-- C7 witness: a failing first step aborts the pipeline with the step name
and cause in the propagated error. -/
theorem migrate_all_order_and_abort_witness :
    migrateAll stepsBoom 0 =
      Except.error "migration services failed: boom" :=
  ((migrate_all_order_and_abort stepsBoom 0).2 [] "services"
    stepsBoom.services (migrationList stepsBoom).tail [] 0 "boom"
    rfl rfl rfl).1

/-- Destination `bought_packages` row (models.go:91-102). -/
structure BoughtPackage where
  id : String
  organizationId : String
  packageId : String
  boughtAt : GoTime
  expiresAt : GoTime
  isAutoExtend : Bool
  isActive : Bool
  price : GoFloat
  deriving DecidableEq, Repr

/-- Destination `bought_package_items` row (models.go:104-116). -/
structure BoughtPackageItem where
  id : String
  boughtPackageId : String
  name : String
  code : Int
  isOverLimitAllowed : Bool
  overLimitPrice : GoFloat
  isUnlimited : Bool
  limitValue : Int
  usedCount : Int
  deriving DecidableEq, Repr

/-- Destination `payments` row (models.go:136-146). -/
structure Payment where
  id : String
  createdAt : GoTime
  amount : GoFloat
  organizationId : String
  accountId : String
  method : Int
  bankTransactionId : Option String
  deriving DecidableEq, Repr

/-- Destination `organization_balance_bindings` row (models.go:164-175). -/
structure OrganizationBalanceBinding where
  id : String
  createdAt : GoTime
  deletedAt : Option GoTime
  isDeleted : Bool
  payerOrganizationId : String
  targetOrganizationId : String
  payerOrganizationName : String
  targetOrganizationName : String
  deriving DecidableEq, Repr

/-- Destination `credit_updates` row (models.go:177-185). -/
structure CreditUpdates where
  id : String
  createdAt : GoTime
  organizationId : String
  amount : GoFloat
  accountId : String
  deriving DecidableEq, Repr

/-- Destination `bank_payments_auto_apply_errors` row (models.go:187-199). -/
structure BankPaymentAutoApplyError where
  id : String
  createdAt : GoTime
  errorMessage : String
  amount : GoFloat
  transactionId : String
  payerInn : String
  payerName : String
  description : Option String
  resolved : Bool
  deriving DecidableEq, Repr

/-- The whole destination database: the fourteen tables of the `tables`
slice in `Migrate` (models.go:309-324). -/
structure DB where
  services : List Service
  organizations : List Organization
  organizationServiceDemoUses : List OrganizationServiceDemoUses
  packages : List Package
  packageItems : List PackageItem
  packageActivationBonusPackages : List PackageActivationBonusPackage
  boughtPackages : List BoughtPackage
  boughtPackageItems : List BoughtPackageItem
  charges : List Charge
  payments : List Payment
  paymeTransactions : List PaymeTransaction
  organizationBalanceBindings : List OrganizationBalanceBinding
  creditUpdates : List CreditUpdates
  bankPaymentAutoApplyErrors : List BankPaymentAutoApplyError

/-- `DropTable(&Service{})` — and likewise for each table below. -/
def dropServices (db : DB) : DB := { db with services := [] }

def dropOrganizations (db : DB) : DB := { db with organizations := [] }

def dropOrganizationServiceDemoUses (db : DB) : DB :=
  { db with organizationServiceDemoUses := [] }

def dropPackages (db : DB) : DB := { db with packages := [] }

def dropPackageItems (db : DB) : DB := { db with packageItems := [] }

def dropPackageActivationBonusPackages (db : DB) : DB :=
  { db with packageActivationBonusPackages := [] }

def dropBoughtPackages (db : DB) : DB := { db with boughtPackages := [] }

def dropBoughtPackageItems (db : DB) : DB :=
  { db with boughtPackageItems := [] }

def dropCharges (db : DB) : DB := { db with charges := [] }

def dropPayments (db : DB) : DB := { db with payments := [] }

def dropPaymeTransactions (db : DB) : DB :=
  { db with paymeTransactions := [] }

def dropOrganizationBalanceBindings (db : DB) : DB :=
  { db with organizationBalanceBindings := [] }

def dropCreditUpdates (db : DB) : DB := { db with creditUpdates := [] }

def dropBankPaymentAutoApplyErrors (db : DB) : DB :=
  { db with bankPaymentAutoApplyErrors := [] }

/-- The drop loop of `Migrate` (models.go:326-330) over the `tables` slice
(models.go:309-324), one drop per table, in slice order. -/
def migrateDropList : List (DB → DB) :=
  [dropServices, dropOrganizations, dropOrganizationServiceDemoUses,
   dropPackages, dropPackageItems, dropPackageActivationBonusPackages,
   dropBoughtPackages, dropBoughtPackageItems, dropCharges, dropPayments,
   dropPaymeTransactions, dropOrganizationBalanceBindings,
   dropCreditUpdates, dropBankPaymentAutoApplyErrors]

/-- `AutoMigrate` (models.go:332): creates the table schemas; it adds or
removes no rows. -/
def autoMigrate (db : DB) : DB := db

/-- `Migrate` (models.go:307-333): drop every table, then recreate. -/
def Migrate (db : DB) : DB :=
  autoMigrate (migrateDropList.foldl (fun d f => f d) db)

/-- The destination with every table empty. -/
def emptyDB : DB :=
  ⟨[], [], [], [], [], [], [], [], [], [], [], [], [], []⟩

/-- The startup sequencing of `main` (main.go:59-68): schema preparation runs
first, then the data migration over the prepared destination. -/
def mainRun (migrateData : DB → Except String DB) (db : DB) :
    Except String DB :=
  migrateData (Migrate db)

/-- C9: schema preparation empties all fourteen destination tables before any
migration step runs, so a full program run is independent of whatever a
previous run left in the destination. -/
theorem migrate_drops_all_tables (db db2 : DB)
    (migrateData : DB → Except String DB) :
    Migrate db = emptyDB ∧
    migrateDropList.length = 14 ∧
    mainRun migrateData db = mainRun migrateData db2 := by
  refine ⟨rfl, rfl, ?_⟩
  unfold mainRun
  rw [show Migrate db = emptyDB from rfl, show Migrate db2 = emptyDB from rfl]

end Migrator
